import Mathlib

/-!
Verification development for the CloudySky repository: the generic-relation
data schema of `app/robot-models.py` (the schema the specification selects)
and the three demo HTTP handlers of `app/views.py`.

The Django model declarations are embedded as Lean records together with a
`DB` state holding the rows of each table.  The operational meaning of the
declared `on_delete` policies (`CASCADE`, `SET_NULL`), of `GenericRelation`
cascades and of the declared uniqueness / not-null constraints is spelled
out as explicit state-transforming functions, following Django's documented
semantics for those declarations.  Timestamps are modelled as natural
numbers (minutes or abstract ticks); file contents are modelled by their
byte length.
-/

namespace CloudySky

/-- The rows of Django's content-type table relevant to this app: one tag per
model class.  `Media.content_type` and `Like.content_type` are plain foreign
keys into this table, with no `limit_choices_to`, so any of these tags can be
stored. -/
inductive CType where
  | user
  | blockreason
  | post
  | comment
  | media
  | like
deriving DecidableEq, Repr

/-- `User.ADMINISTRATOR = "admin"` from `robot-models.py`. -/
def ADMINISTRATOR : String := "admin"

/-- `User.SERF = "serf"` from `robot-models.py`. -/
def SERF : String := "serf"

/-- A row of the `User` table: `role` (CharField with choices and
`default=SERF`), unique `nickname`, optional `avatar`, free-text `bio`. -/
structure User where
  id : Nat
  role : String
  nickname : String
  avatar : Option String
  bio : String
deriving DecidableEq, Repr

/-- A row of the `BlockReason` lookup table: unique `code` plus
human-readable `description`. -/
structure BlockReason where
  id : Nat
  code : String
  description : String
deriving DecidableEq, Repr

/-- A row of the `Post` table.  `author` is a required FK to `User` with
`on_delete=CASCADE`; `hidden_reason` is a nullable FK to `BlockReason` with
`on_delete=SET_NULL`; `hidden_by` is a nullable FK to `User` with
`on_delete=SET_NULL`. -/
structure Post where
  id : Nat
  author_id : Nat
  text : String
  created_at : Nat
  is_hidden : Bool
  hidden_reason_id : Option Nat
  hidden_by_id : Option Nat
  hidden_at : Option Nat
deriving DecidableEq, Repr

/-- A row of the `Comment` table: like `Post` plus the required FK `post`
with `on_delete=CASCADE`. -/
structure Comment where
  id : Nat
  post_id : Nat
  author_id : Nat
  text : String
  created_at : Nat
  is_hidden : Bool
  hidden_reason_id : Option Nat
  hidden_by_id : Option Nat
  hidden_at : Option Nat
deriving DecidableEq, Repr

/-- A row of the `Media` table.  `file_name`/`file_size` model the
`FileField` (name and byte length of the currently stored file, `file.size`
in Django).  `size_bytes` is the `PositiveBigIntegerField` that `save`
captures; it has no default, so it is `none` (Python `None`) until assigned.
The parent is the generic pair (`content_type`, `object_id`); the uploader is
the second generic pair (`uploader_content_type`, `uploader_object_id`). -/
structure Media where
  id : Nat
  file_name : String
  file_size : Nat
  size_bytes : Option Nat
  uploaded_at : Nat
  content_type : CType
  object_id : Nat
  uploader_content_type : CType
  uploader_object_id : Nat
deriving DecidableEq, Repr

/-- A row of the `Like` table: required FK `user` with `on_delete=CASCADE`
and the generic target pair (`content_type`, `object_id`).  The
`UniqueConstraint` named `unique_user_like` covers
(`user`, `content_type`, `object_id`). -/
structure Like where
  id : Nat
  user_id : Nat
  created_at : Nat
  content_type : CType
  object_id : Nat
deriving DecidableEq, Repr

/-- The database state: one list of rows per model table. -/
structure DB where
  users : List User
  reasons : List BlockReason
  posts : List Post
  comments : List Comment
  media : List Media
  likes : List Like
deriving DecidableEq, Repr

/-- Errors surfaced by the storage layer at the point of a write. -/
inductive DBError where
  | ConstraintViolation
  | NotFound
deriving DecidableEq, Repr

/-- Python truthiness of the `size_bytes` attribute: `not self.size_bytes`
is true when the attribute is `None` or `0`. -/
def pySizeFalsy : Option Nat → Bool
  | none => true
  | some n => decide (n = 0)

/-- `Media.save` from `robot-models.py`:
`if not self.size_bytes and self.file: self.size_bytes = self.file.size`,
then the row is written.  A `FileField` is truthy exactly when its name is
non-empty. -/
def Media.save (m : Media) : Media :=
  if pySizeFalsy m.size_bytes && !(m.file_name == "") then
    { m with size_bytes := some m.file_size }
  else
    m

/-- `User(...)` construction without an explicit `role` keyword: every field
is taken from the input, and `role` falls back to the declared field default
`SERF` when not explicitly provided. -/
def User.create (uid : Nat) (role : Option String) (nickname : String)
    (avatar : Option String) (bio : String) : User :=
  { id := uid
    role := role.getD SERF
    nickname := nickname
    avatar := avatar
    bio := bio }

/-- Whether `l` collides with the `unique_user_like` constraint for the
triple (`uid`, `ct`, `oid`). -/
def Like.sameTarget (l : Like) (uid : Nat) (ct : CType) (oid : Nat) : Bool :=
  decide (l.user_id = uid ∧ l.content_type = ct ∧ l.object_id = oid)

/-- Inserting a `Like` row: the storage layer rejects the write with a
constraint violation when the required `user` foreign key has no matching
row, or when the `unique_user_like` constraint on
(`user`, `content_type`, `object_id`) already holds a row for the same
triple; otherwise the row is appended.  The generic target pair is not a
foreign key, so no existence check applies to it. -/
def DB.createLike (db : DB) (uid : Nat) (ct : CType) (oid : Nat)
    (lid ts : Nat) : Except DBError DB :=
  if !(db.users.any fun u => decide (u.id = uid)) then
    .error .ConstraintViolation
  else if db.likes.any fun l => l.sameTarget uid ct oid then
    .error .ConstraintViolation
  else
    .ok { db with
          likes := db.likes ++
            [{ id := lid, user_id := uid, created_at := ts,
               content_type := ct, object_id := oid }] }

/-- Input to a `Media` insert: the uploaded file (name and byte length), the
generic parent pair and the generic uploader pair. -/
structure MediaInput where
  file_name : String
  file_size : Nat
  content_type : CType
  object_id : Nat
  uploader_content_type : CType
  uploader_object_id : Nat
deriving DecidableEq, Repr

/-- Inserting a `Media` row (`Media.objects.create(...)`): the in-memory
object starts with `size_bytes = None`, `Media.save` runs, and the row is
written.  The storage layer enforces NOT NULL on `size_bytes` (the write
fails if `save` left it unset, i.e. when no file is attached).  Both
`content_type` foreign keys point into the content-type table, which every
`CType` tag satisfies by construction; neither generic pair is checked
against the referenced table, so no existence check relates `object_id` or
`uploader_object_id` to any row. -/
def DB.createMedia (db : DB) (inp : MediaInput) (mid ts : Nat) :
    Except DBError DB :=
  let row := Media.save
    { id := mid
      file_name := inp.file_name
      file_size := inp.file_size
      size_bytes := none
      uploaded_at := ts
      content_type := inp.content_type
      object_id := inp.object_id
      uploader_content_type := inp.uploader_content_type
      uploader_object_id := inp.uploader_object_id }
  if row.size_bytes = none then
    .error .ConstraintViolation
  else
    .ok { db with media := db.media ++ [row] }

/-- Deleting a `Post` row, following the declared delete behaviours:
`Comment.post` has `on_delete=CASCADE`, so the post's comments are deleted;
the `GenericRelation`s `media_items` and `likes` on both `Post` and
`Comment` make Django delete every `Media` and `Like` whose generic pair
points at the deleted post or at one of its deleted comments. -/
def DB.deletePost (db : DB) (pid : Nat) : DB :=
  let deadComments := (db.comments.filter fun c => decide (c.post_id = pid)).map Comment.id
  let deadTarget : CType → Nat → Prop := fun ct oid =>
    (ct = CType.post ∧ oid = pid) ∨ (ct = CType.comment ∧ oid ∈ deadComments)
  { db with
    posts := db.posts.filter fun p => decide ¬(p.id = pid)
    comments := db.comments.filter fun c => decide ¬(c.post_id = pid)
    media := db.media.filter fun m => decide ¬(deadTarget m.content_type m.object_id)
    likes := db.likes.filter fun l => decide ¬(deadTarget l.content_type l.object_id) }

/-- Deleting a `User` row, following the declared delete behaviours:
`Post.author`, `Comment.author` and `Like.user` have `on_delete=CASCADE`;
the `uploads` `GenericRelation` on `User` deletes every `Media` whose
uploader pair points at the user; the cascade is transitive through the
deleted posts and comments via their own `CASCADE` foreign keys and
`GenericRelation`s; `Post.hidden_by` and `Comment.hidden_by` have
`on_delete=SET_NULL`, so surviving rows that name the user there get the
field nulled. -/
def DB.deleteUser (db : DB) (uid : Nat) : DB :=
  let deadPosts := (db.posts.filter fun p => decide (p.author_id = uid)).map Post.id
  let deadComments := (db.comments.filter fun c =>
    decide (c.author_id = uid ∨ c.post_id ∈ deadPosts)).map Comment.id
  let deadTarget : CType → Nat → Prop := fun ct oid =>
    (ct = CType.post ∧ oid ∈ deadPosts) ∨ (ct = CType.comment ∧ oid ∈ deadComments)
  { users := db.users.filter fun u => decide ¬(u.id = uid)
    reasons := db.reasons
    posts := (db.posts.filter fun p => decide ¬(p.author_id = uid)).map fun p =>
      if p.hidden_by_id = some uid then { p with hidden_by_id := none } else p
    comments := (db.comments.filter fun c =>
      decide ¬(c.author_id = uid ∨ c.post_id ∈ deadPosts)).map fun c =>
      if c.hidden_by_id = some uid then { c with hidden_by_id := none } else c
    media := db.media.filter fun m =>
      decide ¬((m.uploader_content_type = CType.user ∧ m.uploader_object_id = uid) ∨
        deadTarget m.content_type m.object_id)
    likes := db.likes.filter fun l =>
      decide ¬(l.user_id = uid ∨ deadTarget l.content_type l.object_id) }

/-- Deleting a `BlockReason` row.  The only inbound references are
`Post.hidden_reason` and `Comment.hidden_reason`, both declared with
`on_delete=SET_NULL`: the delete always succeeds and every referencing row
has that one field set to null, all other fields untouched. -/
def DB.deleteBlockReason (db : DB) (rid : Nat) : DB :=
  { db with
    reasons := db.reasons.filter fun r => decide ¬(r.id = rid)
    posts := db.posts.map fun p =>
      if p.hidden_reason_id = some rid then { p with hidden_reason_id := none } else p
    comments := db.comments.map fun c =>
      if c.hidden_reason_id = some rid then { c with hidden_reason_id := none } else c }

/-! ### The demo HTTP handlers of `app/views.py` -/

/-- An inbound HTTP request: method plus the query parameters (`request.GET`),
kept as the ordered list of key/value pairs of the query string. -/
structure HttpRequest where
  method : String
  GET : List (String × String)
deriving DecidableEq, Repr

/-- `django.http.HttpResponse(body)`: the body string together with the
status code, which defaults to 200. -/
structure HttpResponse where
  body : String
  status : Nat
deriving DecidableEq, Repr

/-- `request.GET.get(k)`: Django's `QueryDict.get` returns the value of the
last occurrence of the key, or `None` when the key is absent. -/
def queryGet (q : List (String × String)) (k : String) : Option String :=
  (q.reverse.find? fun p => p.1 == k).map Prod.snd

/-- Numeric value of a string of decimal digits. -/
def digitsVal (cs : List Char) : Nat :=
  cs.foldl (fun a c => a * 10 + (c.toNat - 48)) 0

/-- Split a character list at every dot. -/
def splitDot : List Char → List (List Char)
  | [] => [[]]
  | c :: rest =>
    match splitDot rest with
    | [] => [[c]]
    | g :: gs => if c = '.' then [] :: g :: gs else (c :: g) :: gs

/-- Python `float(s)` on plain decimal literals: optional sign, then digits
with at most one dot, at least one digit overall (`"7"`, `"-2.5"`, `"1."`,
`".5"` parse; `""`, `"."`, `"abc"` raise).  Numeric values are modelled as
exact rationals. -/
def parsePyFloat (s : String) : Option ℚ :=
  let cs := s.data
  let sign : ℚ := if cs.head? = some '-' then -1 else 1
  let body : List Char :=
    if cs.head? = some '-' ∨ cs.head? = some '+' then cs.tail else cs
  match splitDot body with
  | [ip] =>
    if ip ≠ [] ∧ ip.all Char.isDigit then
      some (sign * (digitsVal ip : ℚ))
    else none
  | [ip, fp] =>
    if (ip ≠ [] ∨ fp ≠ []) ∧ ip.all Char.isDigit ∧ fp.all Char.isDigit then
      some (sign * ((digitsVal ip : ℚ) +
        (digitsVal fp : ℚ) / (10 : ℚ) ^ fp.length))
    else none
  | _ => none

/-- The message of the `ValueError` that Python `float(s)` raises on an
unparsable string (the runtime's quoting of `s` is elided). -/
def floatError (s : String) : String :=
  "could not convert string to float: " ++ s

/-- `float(request.GET.get(k, 0))`: an absent parameter falls back to the
integer default `0`, which converts to `0.0`; a present parameter is parsed,
and an unparsable one raises with `floatError`. -/
def paramValue (q : List (String × String)) (k : String) : Except String ℚ :=
  match queryGet q k with
  | none => .ok 0
  | some s =>
    match parsePyFloat s with
    | some x => .ok x
    | none => .error (floatError s)

/-- Python `str` of the numeric result (rendering of the exact rational
standing in for the float). -/
def floatRepr (q : ℚ) : String := toString q

/-- `views.dummypage`: answers only when `request.method == "GET"`;
otherwise the Python function falls off the end and returns `None`, so no
response object is produced. -/
def dummypage (r : HttpRequest) : Option HttpResponse :=
  if r.method = "GET" then
    some { body := "No content here, sorry!", status := 200 }
  else
    none

/-- Zero-padded two-digit rendering used by `strftime` for `%H` and `%M`. -/
def fmt2 (n : Nat) : String :=
  if n < 10 then "0" ++ toString n else toString n

/-- `strftime("%H:%M")` of a point in time given as minutes since the epoch
(seconds do not appear in the format and whole-hour shifts do not change
them). -/
def strftimeHM (t : Nat) : String :=
  fmt2 ((t / 60) % 24) ++ ":" ++ fmt2 (t % 60)

/-- `views.current_time`: `utcnow() - timedelta(hours=5)` rendered as
`%H:%M`.  The current UTC instant is passed as minutes since the epoch. -/
def current_time (utc_now : Nat) : HttpResponse :=
  { body := strftimeHM (utc_now - 5 * 60), status := 200 }

/-- `views.add_numbers`: parse `n1` then `n2` (each defaulting to `0` when
absent), answer their sum on success; the first conversion failure is caught
by the `except` block and answered as `Error: <message>` — still through the
plain `HttpResponse` constructor, hence status 200. -/
def add_numbers (r : HttpRequest) : HttpResponse :=
  match paramValue r.GET "n1" with
  | .error e => { body := "Error: " ++ e, status := 200 }
  | .ok n1 =>
    match paramValue r.GET "n2" with
    | .error e => { body := "Error: " ++ e, status := 200 }
    | .ok n2 => { body := floatRepr (n1 + n2), status := 200 }

/-! ### Claims -/

/-- Claim C9: `dummypage` produces its fixed-text response (status 200) only
when the request method is GET; for any other method the function falls
through and returns no response object at all. -/
theorem dummypage_get_only (r : HttpRequest) :
    (r.method = "GET" →
      dummypage r = some { body := "No content here, sorry!", status := 200 }) ∧
    (r.method ≠ "GET" → dummypage r = none) := by
  constructor
  · intro h
    simp [dummypage, h]
  · intro h
    simp [dummypage, h]

/-- Witness for C9: a GET request is answered with the fixed text, a POST
request yields no response. -/
theorem dummypage_get_only_witness :
    dummypage { method := "GET", GET := [] } =
      some { body := "No content here, sorry!", status := 200 } ∧
    dummypage { method := "POST", GET := [] } = none :=
  ⟨(dummypage_get_only { method := "GET", GET := [] }).1 rfl,
   (dummypage_get_only { method := "POST", GET := [] }).2 (by decide)⟩

/-- Claim C10: a `User` created without an explicit role receives the
default role `SERF` (`"serf"`); no user gets the `ADMINISTRATOR` role unless
it is explicitly supplied. -/
theorem user_default_role_serf (uid : Nat) (nickname : String)
    (avatar : Option String) (bio : String) (role : Option String)
    (hrole : role ≠ some ADMINISTRATOR) :
    (User.create uid none nickname avatar bio).role = SERF ∧
    (User.create uid role nickname avatar bio).role ≠ ADMINISTRATOR := by
  constructor
  · rfl
  · cases role with
    | none => simp [User.create, SERF, ADMINISTRATOR]
    | some s =>
      intro h
      have hs : s = ADMINISTRATOR := h
      exact hrole (by rw [hs])

/-- Witness for C10: a concrete user created with no explicit role is a
serf, not an administrator. -/
theorem user_default_role_serf_witness :
    (User.create 7 none "nick" none "bio").role = SERF ∧
    (User.create 7 none "nick" none "bio").role ≠ ADMINISTRATOR :=
  user_default_role_serf 7 "nick" none "bio" none (by decide)

/-- A `Media` row created from a zero-byte upload: the object starts with
`size_bytes = None` and the first `save` stores the captured size `0`. -/
def zeroByteMedia : Media :=
  Media.save
    { id := 1, file_name := "empty.bin", file_size := 0, size_bytes := none,
      uploaded_at := 0, content_type := CType.post, object_id := 7,
      uploader_content_type := CType.user, uploader_object_id := 3 }

/-- Claim C2 (failing input): `Media.save` guards the capture with the
Python-falsy test `not self.size_bytes`, so a row whose captured size is `0`
has its `size_bytes` recomputed by a later save after the stored file
changed — creation captures `0`, yet a second save overwrites it with the
new file's length `5`. -/
theorem media_size_bytes_recomputed :
    zeroByteMedia.size_bytes = some 0 ∧
    (Media.save
      { zeroByteMedia with file_name := "replaced.bin", file_size := 5 }
      ).size_bytes = some 5 := by
  constructor
  · rfl
  · rfl

/-- Claim C8: `current_time` answers, with status 200, the current UTC time
shifted back five hours, zero-padded as `HH:MM`: the displayed
hour/minute pair is the wall clock 300 minutes before `utc_now`. -/
theorem current_time_shifts_five_hours (t : Nat) (h : 5 * 60 ≤ t) :
    ∃ hh mm : Nat, hh < 24 ∧ mm < 60 ∧
      hh * 60 + mm = (t + 19 * 60) % (24 * 60) ∧
      current_time t = { body := fmt2 hh ++ ":" ++ fmt2 mm, status := 200 } := by
  refine ⟨(t - 5 * 60) / 60 % 24, (t - 5 * 60) % 60, ?_, ?_, ?_, rfl⟩
  · exact Nat.mod_lt _ (by decide)
  · exact Nat.mod_lt _ (by decide)
  · omega

/-- Witness for C8: at `utc_now` = 310 minutes past the epoch the displayed
time is 10 minutes past midnight. -/
theorem current_time_shifts_five_hours_witness :
    ∃ hh mm : Nat, hh < 24 ∧ mm < 60 ∧
      hh * 60 + mm = (310 + 19 * 60) % (24 * 60) ∧
      current_time 310 = { body := fmt2 hh ++ ":" ++ fmt2 mm, status := 200 } :=
  current_time_shifts_five_hours 310 (by decide)

/-- Claim C1: for a user that exists and a target (type-tag, id) pair not
yet liked by that user, inserting a `Like` succeeds and stores the row;
repeating the insert for the same (user, target) pair is rejected with a
`ConstraintViolation` by the `unique_user_like` constraint, leaving the
state untouched rather than overwriting the existing row. -/
theorem like_unique_per_target (db : DB) (uid : Nat) (ct : CType) (oid : Nat)
    (lid1 ts1 lid2 ts2 : Nat)
    (huser : ∃ u ∈ db.users, u.id = uid)
    (hfresh : ∀ l ∈ db.likes,
      ¬(l.user_id = uid ∧ l.content_type = ct ∧ l.object_id = oid)) :
    ∃ db2, db.createLike uid ct oid lid1 ts1 = .ok db2 ∧
      (∃ l ∈ db2.likes,
        l.user_id = uid ∧ l.content_type = ct ∧ l.object_id = oid) ∧
      db2.createLike uid ct oid lid2 ts2 = .error .ConstraintViolation := by
  have h1 : (db.users.any fun u => decide (u.id = uid)) = true := by
    rcases huser with ⟨u, hu, he⟩
    exact List.any_eq_true.2 ⟨u, hu, by simpa using he⟩
  have h2 : (db.likes.any fun l => l.sameTarget uid ct oid) = false := by
    rw [List.any_eq_false]
    intro l hl
    simp [Like.sameTarget]
    intro e1 e2
    exact fun e3 => hfresh l hl ⟨e1, e2, e3⟩
  refine ⟨{ db with likes := db.likes ++
      [{ id := lid1, user_id := uid, created_at := ts1,
         content_type := ct, object_id := oid }] }, ?_, ?_, ?_⟩
  · simp [DB.createLike, h1, h2]
  · exact ⟨_, List.mem_append_right _ (List.mem_singleton.2 rfl), rfl, rfl, rfl⟩
  · simp [DB.createLike, h1, List.any_append, Like.sameTarget]

/-- A concrete state for the C1 witness: one user, one post, no likes. -/
def dbLike0 : DB :=
  { users := [{ id := 1, role := "serf", nickname := "alice", avatar := none,
                bio := "" }]
    reasons := []
    posts := [{ id := 9, author_id := 1, text := "hello", created_at := 0,
                is_hidden := false, hidden_reason_id := none,
                hidden_by_id := none, hidden_at := none }]
    comments := []
    media := []
    likes := [] }

/-- Witness for C1: user 1 can like post 9 once; the second attempt fails
with a `ConstraintViolation`. -/
theorem like_unique_per_target_witness :
    ∃ db2, dbLike0.createLike 1 CType.post 9 100 50 = .ok db2 ∧
      (∃ l ∈ db2.likes,
        l.user_id = 1 ∧ l.content_type = CType.post ∧ l.object_id = 9) ∧
      db2.createLike 1 CType.post 9 101 51 = .error .ConstraintViolation :=
  like_unique_per_target dbLike0 1 CType.post 9 100 50 101 51
    ⟨{ id := 1, role := "serf", nickname := "alice", avatar := none,
       bio := "" }, by decide, rfl⟩
    (by intro l hl; simp [dbLike0] at hl)

/-- The empty database state. -/
def emptyDB : DB :=
  { users := [], reasons := [], posts := [], comments := [], media := [],
    likes := [] }

/-- Claim C6 (counterexample): the schema does not stop a `Media` insert
whose generic pairs match no row.  On the empty database — no posts, no
comments, no users at all — inserting a `Media` whose parent pair is
(post, 99) and whose uploader pair is (user, 77) succeeds, and so does one
whose parent tag is `blockreason`, which is neither Post nor Comment. -/
theorem createMedia_dangling_accepted :
    emptyDB.posts = [] ∧ emptyDB.comments = [] ∧ emptyDB.users = [] ∧
    emptyDB.createMedia
      { file_name := "x.png", file_size := 3, content_type := CType.post,
        object_id := 99, uploader_content_type := CType.user,
        uploader_object_id := 77 } 1 0 =
      .ok { emptyDB with media :=
        [{ id := 1, file_name := "x.png", file_size := 3,
           size_bytes := some 3, uploaded_at := 0,
           content_type := CType.post, object_id := 99,
           uploader_content_type := CType.user,
           uploader_object_id := 77 }] } ∧
    emptyDB.createMedia
      { file_name := "y.png", file_size := 4,
        content_type := CType.blockreason, object_id := 1,
        uploader_content_type := CType.user, uploader_object_id := 1 } 2 0 =
      .ok { emptyDB with media :=
        [{ id := 2, file_name := "y.png", file_size := 4,
           size_bytes := some 4, uploaded_at := 0,
           content_type := CType.blockreason, object_id := 1,
           uploader_content_type := CType.user,
           uploader_object_id := 1 }] } := by
  refine ⟨rfl, rfl, rfl, rfl, rfl⟩

/-- Claim C6 (amended): every `Media` row records its parent and its
uploader each as a (type-tag, identifier) pair — not as two separate
foreign keys — and the insert of a row with an attached file always
succeeds, with no check that either pair matches an existing row and no
restriction of the parent tag to Post or Comment. -/
theorem createMedia_pair_unchecked (db : DB) (inp : MediaInput)
    (mid ts : Nat) (hfile : inp.file_name ≠ "") :
    ∃ row, db.createMedia inp mid ts = .ok { db with media := db.media ++ [row] } ∧
      row.content_type = inp.content_type ∧
      row.object_id = inp.object_id ∧
      row.uploader_content_type = inp.uploader_content_type ∧
      row.uploader_object_id = inp.uploader_object_id ∧
      row.size_bytes = some inp.file_size := by
  refine ⟨{ id := mid
            file_name := inp.file_name
            file_size := inp.file_size
            size_bytes := some inp.file_size
            uploaded_at := ts
            content_type := inp.content_type
            object_id := inp.object_id
            uploader_content_type := inp.uploader_content_type
            uploader_object_id := inp.uploader_object_id }, ?_, rfl, rfl, rfl, rfl, rfl⟩
  simp [DB.createMedia, Media.save, pySizeFalsy, hfile]

/-- Witness for C6 (amended): a concrete insert against the empty database
(target pair (comment, 5), uploader pair (user, 2), neither of which
exists) succeeds and stores both pairs. -/
theorem createMedia_pair_unchecked_witness :
    ∃ row, emptyDB.createMedia
      { file_name := "w.png", file_size := 8, content_type := CType.comment,
        object_id := 5, uploader_content_type := CType.user,
        uploader_object_id := 2 } 3 9 =
      .ok { emptyDB with media := emptyDB.media ++ [row] } ∧
      row.content_type = CType.comment ∧
      row.object_id = 5 ∧
      row.uploader_content_type = CType.user ∧
      row.uploader_object_id = 2 ∧
      row.size_bytes = some 8 :=
  createMedia_pair_unchecked emptyDB
    { file_name := "w.png", file_size := 8, content_type := CType.comment,
      object_id := 5, uploader_content_type := CType.user,
      uploader_object_id := 2 } 3 9 (by decide)

/-- Claim C5: deleting a `BlockReason` (a total operation — it succeeds no
matter which rows reference it) removes the reason row and leaves every
table untouched except that each `Post` and `Comment` whose
`hidden_reason` named the deleted reason has that single field set to
null: position for position, the resulting `hidden_reason` is `none` when
the old one named the deleted reason and is unchanged otherwise, and every
other field — `is_hidden` included — is unchanged. -/
theorem deleteBlockReason_nulls_reason_only (db : DB) (rid : Nat) :
    (∀ r ∈ (db.deleteBlockReason rid).reasons, r.id ≠ rid) ∧
    (∀ r ∈ db.reasons, r.id ≠ rid → r ∈ (db.deleteBlockReason rid).reasons) ∧
    (db.deleteBlockReason rid).users = db.users ∧
    (db.deleteBlockReason rid).media = db.media ∧
    (db.deleteBlockReason rid).likes = db.likes ∧
    (db.deleteBlockReason rid).posts.length = db.posts.length ∧
    (db.deleteBlockReason rid).comments.length = db.comments.length ∧
    (∀ (i : Nat) (p1 p2 : Post), db.posts[i]? = some p1 →
      (db.deleteBlockReason rid).posts[i]? = some p2 →
      p2.id = p1.id ∧ p2.author_id = p1.author_id ∧ p2.text = p1.text ∧
      p2.created_at = p1.created_at ∧ p2.is_hidden = p1.is_hidden ∧
      p2.hidden_by_id = p1.hidden_by_id ∧ p2.hidden_at = p1.hidden_at ∧
      p2.hidden_reason_id =
        (if p1.hidden_reason_id = some rid then none
         else p1.hidden_reason_id)) ∧
    (∀ (i : Nat) (c1 c2 : Comment), db.comments[i]? = some c1 →
      (db.deleteBlockReason rid).comments[i]? = some c2 →
      c2.id = c1.id ∧ c2.post_id = c1.post_id ∧
      c2.author_id = c1.author_id ∧ c2.text = c1.text ∧
      c2.created_at = c1.created_at ∧ c2.is_hidden = c1.is_hidden ∧
      c2.hidden_by_id = c1.hidden_by_id ∧ c2.hidden_at = c1.hidden_at ∧
      c2.hidden_reason_id =
        (if c1.hidden_reason_id = some rid then none
         else c1.hidden_reason_id)) := by
  refine ⟨?_, ?_, rfl, rfl, rfl, ?_, ?_, ?_, ?_⟩
  · intro r hr
    simp [DB.deleteBlockReason, List.mem_filter] at hr
    exact hr.2
  · intro r hr hne
    simp [DB.deleteBlockReason, List.mem_filter]
    exact ⟨hr, hne⟩
  · simp [DB.deleteBlockReason]
  · simp [DB.deleteBlockReason]
  · intro i p1 p2 h1 h2
    simp [DB.deleteBlockReason, List.getElem?_map, h1] at h2
    subst h2
    by_cases h : p1.hidden_reason_id = some rid <;> simp [h]
  · intro i c1 c2 h1 h2
    simp [DB.deleteBlockReason, List.getElem?_map, h1] at h2
    subst h2
    by_cases h : c1.hidden_reason_id = some rid <;> simp [h]

/-- A concrete state for the C5 witness: two reasons (ids 5 and 2), one
post hidden with reason 5. -/
def dbReason0 : DB :=
  { users := []
    reasons := [{ id := 5, code := "SPAM", description := "spam" },
                { id := 2, code := "OTHER", description := "other" }]
    posts := [{ id := 1, author_id := 1, text := "p", created_at := 0,
                is_hidden := true, hidden_reason_id := some 5,
                hidden_by_id := some 1, hidden_at := some 3 }]
    comments := []
    media := []
    likes := [] }

/-- The hidden post of `dbReason0` before its block reason is deleted. -/
def hiddenPostBefore : Post :=
  { id := 1, author_id := 1, text := "p", created_at := 0,
    is_hidden := true, hidden_reason_id := some 5, hidden_by_id := some 1,
    hidden_at := some 3 }

/-- The same post as `deleteBlockReason` leaves it: reason nulled, all
other fields intact. -/
def hiddenPostAfter : Post :=
  { id := 1, author_id := 1, text := "p", created_at := 0,
    is_hidden := true, hidden_reason_id := none, hidden_by_id := some 1,
    hidden_at := some 3 }

/-- Witness for C5: deleting reason 5 from `dbReason0` yields
`hiddenPostAfter` at position 0 of the posts table — still hidden, its
`hidden_reason` now null — keeps reason 2 and keeps the post count. -/
theorem deleteBlockReason_nulls_reason_only_witness :
    (dbReason0.deleteBlockReason 5).posts[0]? = some hiddenPostAfter ∧
    hiddenPostAfter.is_hidden = hiddenPostBefore.is_hidden ∧
    hiddenPostAfter.hidden_reason_id =
      (if hiddenPostBefore.hidden_reason_id = some 5 then none
       else hiddenPostBefore.hidden_reason_id) ∧
    hiddenPostAfter.hidden_reason_id = none ∧
    ({ id := 2, code := "OTHER", description := "other" } : BlockReason) ∈
      (dbReason0.deleteBlockReason 5).reasons ∧
    (dbReason0.deleteBlockReason 5).posts.length = dbReason0.posts.length :=
  ⟨rfl,
   ((deleteBlockReason_nulls_reason_only dbReason0 5).2.2.2.2.2.2.2.1
      0 hiddenPostBefore hiddenPostAfter rfl rfl).2.2.2.2.1,
   ((deleteBlockReason_nulls_reason_only dbReason0 5).2.2.2.2.2.2.2.1
      0 hiddenPostBefore hiddenPostAfter rfl rfl).2.2.2.2.2.2.2,
   rfl,
   (deleteBlockReason_nulls_reason_only dbReason0 5).2.1
      { id := 2, code := "OTHER", description := "other" } (by decide)
      (by decide),
   (deleteBlockReason_nulls_reason_only dbReason0 5).2.2.2.2.2.1⟩

/-- Claim C7: in `add_numbers` each parameter defaults to `0` when absent;
every response carries status 200; when both parameters convert, the body
is the rendering of their sum; when a conversion fails, the body is
`Error: <message>` for the conversion error raised first. -/
theorem add_numbers_spec (r : HttpRequest) :
    (add_numbers r).status = 200 ∧
    (queryGet r.GET "n1" = none → paramValue r.GET "n1" = .ok 0) ∧
    (queryGet r.GET "n2" = none → paramValue r.GET "n2" = .ok 0) ∧
    (∀ a b : ℚ, paramValue r.GET "n1" = .ok a →
      paramValue r.GET "n2" = .ok b →
      add_numbers r = { body := floatRepr (a + b), status := 200 }) ∧
    (∀ e, paramValue r.GET "n1" = .error e →
      add_numbers r = { body := "Error: " ++ e, status := 200 }) ∧
    (∀ a e, paramValue r.GET "n1" = .ok a →
      paramValue r.GET "n2" = .error e →
      add_numbers r = { body := "Error: " ++ e, status := 200 }) := by
  refine ⟨?_, ?_, ?_, ?_, ?_, ?_⟩
  · rcases h1 : paramValue r.GET "n1" with e | a
    · simp [add_numbers, h1]
    · rcases h2 : paramValue r.GET "n2" with e | b <;>
        simp [add_numbers, h1, h2]
  · intro h
    simp [paramValue, h]
  · intro h
    simp [paramValue, h]
  · intro a b h1 h2
    simp [add_numbers, h1, h2]
  · intro e h1
    simp [add_numbers, h1]
  · intro a e h1 h2
    simp [add_numbers, h1, h2]

/-- Witness for C7: `n1=2.5` with `n2` absent sums to `2.5 + 0`; an
unparsable `n1=abc` is answered as an `Error:` body with status 200; an
absent `n1` evaluates to `0`. -/
theorem add_numbers_spec_witness :
    add_numbers { method := "GET", GET := [("n1", "2.5")] } =
      { body := floatRepr ((5 : ℚ) / 2 + 0), status := 200 } ∧
    add_numbers { method := "GET", GET := [("n1", "abc")] } =
      { body := "Error: " ++ floatError "abc", status := 200 } ∧
    paramValue [("n2", "1")] "n1" = .ok 0 :=
  ⟨(add_numbers_spec { method := "GET", GET := [("n1", "2.5")] }).2.2.2.1
      ((5 : ℚ) / 2) 0
      (by
        have e1 : digitsVal ['2'] = 2 := rfl
        have e2 : digitsVal ['5'] = 5 := rfl
        simp +decide [paramValue, queryGet, parsePyFloat, splitDot, e1, e2]
        norm_num)
      (by simp +decide [paramValue, queryGet]),
   (add_numbers_spec { method := "GET", GET := [("n1", "abc")] }).2.2.2.2.1
      (floatError "abc")
      (by simp +decide [paramValue, queryGet, parsePyFloat, splitDot]),
   (add_numbers_spec { method := "GET", GET := [("n2", "1")] }).2.1
      (by simp +decide [queryGet])⟩

/-- Claim C3: deleting a post removes the post, every comment on it, every
media/like whose generic pair points at the post, and every media/like whose
generic pair points at one of the deleted comments; users and reasons are
untouched, and every row not referencing the deleted post or its deleted
comments survives.  No surviving row references the deleted post or its
deleted comments. -/
theorem deletePost_cascades (db : DB) (pid : Nat) :
    (db.deletePost pid).users = db.users ∧
    (db.deletePost pid).reasons = db.reasons ∧
    (∀ p ∈ (db.deletePost pid).posts, p.id ≠ pid) ∧
    (∀ c ∈ (db.deletePost pid).comments, c.post_id ≠ pid) ∧
    (∀ m ∈ (db.deletePost pid).media,
      ¬(m.content_type = CType.post ∧ m.object_id = pid) ∧
      ∀ c ∈ db.comments, c.post_id = pid →
        ¬(m.content_type = CType.comment ∧ m.object_id = c.id)) ∧
    (∀ l ∈ (db.deletePost pid).likes,
      ¬(l.content_type = CType.post ∧ l.object_id = pid) ∧
      ∀ c ∈ db.comments, c.post_id = pid →
        ¬(l.content_type = CType.comment ∧ l.object_id = c.id)) ∧
    (∀ p ∈ db.posts, p.id ≠ pid → p ∈ (db.deletePost pid).posts) ∧
    (∀ c ∈ db.comments, c.post_id ≠ pid → c ∈ (db.deletePost pid).comments) ∧
    (∀ m ∈ db.media,
      ¬(m.content_type = CType.post ∧ m.object_id = pid) →
      (∀ c ∈ db.comments, c.post_id = pid →
        ¬(m.content_type = CType.comment ∧ m.object_id = c.id)) →
      m ∈ (db.deletePost pid).media) ∧
    (∀ l ∈ db.likes,
      ¬(l.content_type = CType.post ∧ l.object_id = pid) →
      (∀ c ∈ db.comments, c.post_id = pid →
        ¬(l.content_type = CType.comment ∧ l.object_id = c.id)) →
      l ∈ (db.deletePost pid).likes) := by
  refine ⟨rfl, rfl, ?_, ?_, ?_, ?_, ?_, ?_, ?_, ?_⟩
  · intro p hp
    simp only [DB.deletePost, List.mem_filter, decide_eq_true_eq] at hp
    exact hp.2
  · intro c hc
    simp only [DB.deletePost, List.mem_filter, decide_eq_true_eq] at hc
    exact hc.2
  · intro m hm
    simp only [DB.deletePost, List.mem_filter, List.mem_map,
      decide_eq_true_eq] at hm
    obtain ⟨hmem, hnot⟩ := hm
    constructor
    · exact fun h => hnot (Or.inl h)
    · rintro c hc hcp ⟨hct, hoid⟩
      exact hnot (Or.inr ⟨hct, c, ⟨hc, hcp⟩, hoid.symm⟩)
  · intro l hl
    simp only [DB.deletePost, List.mem_filter, List.mem_map,
      decide_eq_true_eq] at hl
    obtain ⟨hmem, hnot⟩ := hl
    constructor
    · exact fun h => hnot (Or.inl h)
    · rintro c hc hcp ⟨hct, hoid⟩
      exact hnot (Or.inr ⟨hct, c, ⟨hc, hcp⟩, hoid.symm⟩)
  · intro p hp hne
    simp only [DB.deletePost, List.mem_filter, decide_eq_true_eq]
    exact ⟨hp, hne⟩
  · intro c hc hne
    simp only [DB.deletePost, List.mem_filter, decide_eq_true_eq]
    exact ⟨hc, hne⟩
  · intro m hm h1 h2
    simp only [DB.deletePost, List.mem_filter, List.mem_map,
      decide_eq_true_eq]
    refine ⟨hm, ?_⟩
    rintro (h | ⟨hct, c, ⟨hc, hcp⟩, hid⟩)
    · exact h1 h
    · exact h2 c hc hcp ⟨hct, hid.symm⟩
  · intro l hl h1 h2
    simp only [DB.deletePost, List.mem_filter, List.mem_map,
      decide_eq_true_eq]
    refine ⟨hl, ?_⟩
    rintro (h | ⟨hct, c, ⟨hc, hcp⟩, hid⟩)
    · exact h1 h
    · exact h2 c hc hcp ⟨hct, hid.symm⟩

/-- A concrete state for the C3 witness: posts 1 and 2, a comment on each,
a media row on comment 10 (which hangs off post 1) and a like on post 2. -/
def dbPost0 : DB :=
  { users := []
    reasons := []
    posts := [{ id := 1, author_id := 1, text := "p", created_at := 0,
                is_hidden := false, hidden_reason_id := none,
                hidden_by_id := none, hidden_at := none },
              { id := 2, author_id := 1, text := "q", created_at := 0,
                is_hidden := false, hidden_reason_id := none,
                hidden_by_id := none, hidden_at := none }]
    comments := [{ id := 10, post_id := 1, author_id := 1, text := "c",
                   created_at := 0, is_hidden := false,
                   hidden_reason_id := none, hidden_by_id := none,
                   hidden_at := none },
                 { id := 20, post_id := 2, author_id := 1, text := "d",
                   created_at := 0, is_hidden := false,
                   hidden_reason_id := none, hidden_by_id := none,
                   hidden_at := none }]
    media := [{ id := 100, file_name := "f", file_size := 4,
                size_bytes := some 4, uploaded_at := 0,
                content_type := CType.comment, object_id := 10,
                uploader_content_type := CType.user,
                uploader_object_id := 1 }]
    likes := [{ id := 200, user_id := 1, created_at := 0,
                content_type := CType.post, object_id := 2 }] }

/-- Witness for C3: after deleting post 1 from `dbPost0`, post 2 and its
comment survive, and the surviving like does not reference post 1. -/
theorem deletePost_cascades_witness :
    ({ id := 2, author_id := 1, text := "q", created_at := 0,
       is_hidden := false, hidden_reason_id := none, hidden_by_id := none,
       hidden_at := none } : Post) ∈ (dbPost0.deletePost 1).posts ∧
    ({ id := 20, post_id := 2, author_id := 1, text := "d", created_at := 0,
       is_hidden := false, hidden_reason_id := none, hidden_by_id := none,
       hidden_at := none } : Comment) ∈ (dbPost0.deletePost 1).comments ∧
    ¬(({ id := 200, user_id := 1, created_at := 0,
         content_type := CType.post, object_id := 2 } : Like).content_type =
        CType.post ∧
      ({ id := 200, user_id := 1, created_at := 0,
         content_type := CType.post, object_id := 2 } : Like).object_id = 1) :=
  ⟨(deletePost_cascades dbPost0 1).2.2.2.2.2.2.1 _ (by decide) (by decide),
   (deletePost_cascades dbPost0 1).2.2.2.2.2.2.2.1 _ (by decide) (by decide),
   ((deletePost_cascades dbPost0 1).2.2.2.2.2.1 _ (by decide)).1⟩

/-- Claim C4: deleting a user removes the user row together with every post,
comment and like owned by the user and every media row whose uploader pair
names the user; no surviving post, comment, like or media row keeps a
reference to the deleted owner.  Rows owned by other users survive: users
and block reasons are only removed when they are the deleted user, a post of
another author survives (modulo the `SET_NULL` nulling of `hidden_by`), and
a comment survives when neither it nor its post is owned by the deleted
user. -/
theorem deleteUser_cascades (db : DB) (uid : Nat) :
    (∀ u ∈ (db.deleteUser uid).users, u.id ≠ uid) ∧
    (∀ p ∈ (db.deleteUser uid).posts, p.author_id ≠ uid) ∧
    (∀ c ∈ (db.deleteUser uid).comments, c.author_id ≠ uid) ∧
    (∀ l ∈ (db.deleteUser uid).likes, l.user_id ≠ uid) ∧
    (∀ m ∈ (db.deleteUser uid).media,
      ¬(m.uploader_content_type = CType.user ∧
        m.uploader_object_id = uid)) ∧
    (db.deleteUser uid).reasons = db.reasons ∧
    (∀ u ∈ db.users, u.id ≠ uid → u ∈ (db.deleteUser uid).users) ∧
    (∀ p ∈ db.posts, p.author_id ≠ uid →
      ∃ p2 ∈ (db.deleteUser uid).posts,
        p2.id = p.id ∧ p2.author_id = p.author_id) ∧
    (∀ c ∈ db.comments, c.author_id ≠ uid →
      (∀ p ∈ db.posts, p.id = c.post_id → p.author_id ≠ uid) →
      ∃ c2 ∈ (db.deleteUser uid).comments,
        c2.id = c.id ∧ c2.author_id = c.author_id) := by
  refine ⟨?_, ?_, ?_, ?_, ?_, rfl, ?_, ?_, ?_⟩
  · intro u hu
    simp only [DB.deleteUser, List.mem_filter, decide_eq_true_eq] at hu
    exact hu.2
  · intro p2 hp2
    simp only [DB.deleteUser, List.mem_map, List.mem_filter,
      decide_eq_true_eq] at hp2
    obtain ⟨p, ⟨hp, hne⟩, rfl⟩ := hp2
    by_cases h : p.hidden_by_id = some uid <;> simp [h, hne]
  · intro c2 hc2
    simp only [DB.deleteUser, List.mem_map, List.mem_filter,
      decide_eq_true_eq] at hc2
    obtain ⟨c, ⟨hc, hne⟩, rfl⟩ := hc2
    by_cases h : c.hidden_by_id = some uid <;>
      simpa [h] using fun he => hne (Or.inl he)
  · intro l hl
    simp only [DB.deleteUser, List.mem_filter, decide_eq_true_eq] at hl
    exact fun he => hl.2 (Or.inl he)
  · intro m hm
    simp only [DB.deleteUser, List.mem_filter, decide_eq_true_eq] at hm
    exact fun he => hm.2 (Or.inl he)
  · intro u hu hne
    simp only [DB.deleteUser, List.mem_filter, decide_eq_true_eq]
    exact ⟨hu, hne⟩
  · intro p hp hne
    simp only [DB.deleteUser, List.mem_map, List.mem_filter,
      decide_eq_true_eq]
    refine ⟨_, ⟨p, ⟨hp, hne⟩, rfl⟩, ?_⟩
    by_cases h : p.hidden_by_id = some uid <;> simp [h]
  · intro c hc hne hposts
    simp only [DB.deleteUser, List.mem_map, List.mem_filter,
      decide_eq_true_eq]
    refine ⟨_, ⟨c, ⟨hc, ?_⟩, rfl⟩, ?_⟩
    · rintro (h | ⟨p, ⟨hp, hpauth⟩, hpid⟩)
      · exact hne h
      · exact hposts p hp hpid hpauth
    · by_cases h : c.hidden_by_id = some uid <;> simp [h]

/-- A concrete state for the C4 witness: users 1 and 2, a post of each, two
comments on post 2 (one authored by user 1), a like by user 2 and a media
row uploaded by user 2. -/
def dbUser0 : DB :=
  { users := [{ id := 1, role := "serf", nickname := "alice", avatar := none,
                bio := "" },
              { id := 2, role := "serf", nickname := "bob", avatar := none,
                bio := "" }]
    reasons := []
    posts := [{ id := 1, author_id := 1, text := "p", created_at := 0,
                is_hidden := false, hidden_reason_id := none,
                hidden_by_id := none, hidden_at := none },
              { id := 2, author_id := 2, text := "q", created_at := 0,
                is_hidden := false, hidden_reason_id := none,
                hidden_by_id := none, hidden_at := none }]
    comments := [{ id := 10, post_id := 2, author_id := 1, text := "c",
                   created_at := 0, is_hidden := false,
                   hidden_reason_id := none, hidden_by_id := none,
                   hidden_at := none },
                 { id := 20, post_id := 2, author_id := 2, text := "d",
                   created_at := 0, is_hidden := false,
                   hidden_reason_id := none, hidden_by_id := none,
                   hidden_at := none }]
    media := [{ id := 100, file_name := "f", file_size := 4,
                size_bytes := some 4, uploaded_at := 0,
                content_type := CType.post, object_id := 2,
                uploader_content_type := CType.user,
                uploader_object_id := 2 }]
    likes := [{ id := 200, user_id := 2, created_at := 0,
                content_type := CType.post, object_id := 2 }] }

/-- Witness for C4: after deleting user 1 from `dbUser0`, user 2 survives,
a post of user 2 survives with its author reference intact, and so does the
comment of user 2 on user 2's post. -/
theorem deleteUser_cascades_witness :
    ({ id := 2, role := "serf", nickname := "bob", avatar := none,
       bio := "" } : User) ∈ (dbUser0.deleteUser 1).users ∧
    (∃ p2 ∈ (dbUser0.deleteUser 1).posts,
      p2.id = ({ id := 2, author_id := 2, text := "q", created_at := 0,
                 is_hidden := false, hidden_reason_id := none,
                 hidden_by_id := none, hidden_at := none } : Post).id ∧
      p2.author_id = ({ id := 2, author_id := 2, text := "q",
                        created_at := 0, is_hidden := false,
                        hidden_reason_id := none, hidden_by_id := none,
                        hidden_at := none } : Post).author_id) ∧
    (∃ c2 ∈ (dbUser0.deleteUser 1).comments,
      c2.id = ({ id := 20, post_id := 2, author_id := 2, text := "d",
                 created_at := 0, is_hidden := false,
                 hidden_reason_id := none, hidden_by_id := none,
                 hidden_at := none } : Comment).id ∧
      c2.author_id = ({ id := 20, post_id := 2, author_id := 2, text := "d",
                        created_at := 0, is_hidden := false,
                        hidden_reason_id := none, hidden_by_id := none,
                        hidden_at := none } : Comment).author_id) :=
  ⟨(deleteUser_cascades dbUser0 1).2.2.2.2.2.2.1 _ (by decide) (by decide),
   (deleteUser_cascades dbUser0 1).2.2.2.2.2.2.2.1 _ (by decide) (by decide),
   (deleteUser_cascades dbUser0 1).2.2.2.2.2.2.2.2 _ (by decide) (by decide)
     (by
       intro p hp hpid
       simp only [dbUser0, List.mem_cons, List.not_mem_nil, or_false] at hp
       rcases hp with rfl | rfl
       · exact absurd hpid (by decide)
       · decide)⟩

end CloudySky


